import Mathlib

/-!
Verification of the s2shapely pybind11 interop shim (`src/pybind11.hpp`).

The file under verification is a thin adapter between dynamically typed
Python object handles (`pybind11::object`) and native `Geography` pointers,
plus the numpy registration metadata (`vectorize_arg`, `npy_format_descriptor`)
that lets arrays of such handles flow through vectorized functions.

We embed the adapter shallowly:
 - a Python handle is a value carrying the address of its `PyObject` and a
   description of its referent;
 - pybind11's `handle::cast<Geography*>()` is modelled by its documented
   semantics (`pybind11::cast<T>` loads with `convert = true`, so `None`
   loads as a null pointer, a wrapped `Geography` loads as a pointer to that
   same object, anything else raises `cast_error`);
 - the three methods of `PyObjectGeography` and the two numpy traits are
   translated directly from the source.
-/

namespace S2Shapely

/-- Modelled from the spec: the Native Geometry Object family (`geography.hpp`
is not part of the provided sources) is a polymorphic base type `Geography`
plus subtypes; each live object has an address and a dynamic subtype tag. -/
structure GeogObj where
  addr : Nat
  kind : Nat
deriving DecidableEq, Repr

/-- A raw `Geography*`: either null or a pointer to a live object. -/
abbrev GeogPtr := Option GeogObj

/-- What a Python handle can refer to: a pybind11-wrapped `Geography`
(sub)object, a plain int, a plain string, `None`, or any other Python
object (tagged). `numpy.object` arrays may hold any of these. -/
inductive Referent where
  | geog (addr : Nat) (kind : Nat) : Referent
  | pyInt (n : Int) : Referent
  | pyStr (s : String) : Referent
  | pyNone : Referent
  | pyOther (tag : Nat) : Referent
deriving DecidableEq, Repr

/-- A `pybind11::object`: a reference-counted handle, identified by the
address of the `PyObject` it holds, together with the referent it points at.
Copying the handle copies neither the referent nor the `PyObject`. -/
structure PyObject where
  oid : Nat
  referent : Referent
deriving DecidableEq, Repr

/-- `PyObjectGeography` publicly derives from `pybind11::object` and adds
only methods, no data; its values are exactly `pybind11::object` values. -/
abbrev PyObjectGeography := PyObject

/-- pybind11 `cast_error`, raised when a load/conversion fails. -/
inductive CastErr where
  | castError : CastErr
deriving DecidableEq, Repr

/-- Python-side exceptions relevant to this file: `py::type_error` raises
`TypeError`, `py::value_error` raises `ValueError`, and `pybind11_fail`
throws `std::runtime_error`, surfaced as `RuntimeError`. -/
inductive PyErr where
  | typeError (msg : String) : PyErr
  | valueError (msg : String) : PyErr
  | runtimeError (msg : String) : PyErr
deriving DecidableEq, Repr

/-- pybind11 `object::cast<Geography*>()` (external library semantics):
`pybind11::cast<T>` calls the generic caster's `load` with `convert = true`,
so a `None` referent loads as a null `Geography*`; a handle wrapping a
`Geography` (sub)object loads as a non-owning pointer to that same object
(same address, same dynamic subtype); every other referent fails to load and
raises `cast_error`. The load reads the referent's type and mutates nothing. -/
def castGeographyPointer : Referent → Except CastErr GeogPtr
  | .geog a k => .ok (some ⟨a, k⟩)
  | .pyNone => .ok none
  | .pyInt _ => .error .castError
  | .pyStr _ => .error .castError
  | .pyOther _ => .error .castError

/-- `PyObjectGeography::as_geog_ptr`: attempt `cast<Geography*>()`; on
`cast_error` throw `py::type_error("not a Geography object")`. -/
def as_geog_ptr (self : PyObjectGeography) : Except PyErr GeogPtr :=
  match castGeographyPointer self.referent with
  | .ok p => .ok p
  | .error _ => .error (.typeError "not a Geography object")

/-- `PyObjectGeography::is_geog_ptr`: attempt the same `cast<Geography*>()`;
return `false` if it raises `cast_error`, `true` otherwise. Never throws. -/
def is_geog_ptr (self : PyObjectGeography) : Bool :=
  match castGeographyPointer self.referent with
  | .ok _ => true
  | .error _ => false

/-- `PyObjectGeography::as_py_object`: wrap a freshly constructed, exclusively
owned `Geography` subobject via `py::cast(std::move(geog_ptr))`. pybind11's
`type_caster` for `std::unique_ptr` moves the pointer into a newly allocated
Python wrapper (at fresh `PyObject` address `fresh`); the wrapped native
object keeps its address and dynamic subtype, with no copy. -/
def as_py_object (geog_ptr : GeogObj) (fresh : Nat) : PyObjectGeography :=
  ⟨fresh, .geog geog_ptr.addr geog_ptr.kind⟩

/-- The interpreter state visible to this component: per-`PyObject` reference
counts (an association list from `PyObject` address to count). The adapter
itself never touches these; they are managed by the host runtime. -/
structure PyState where
  refcounts : List (Nat × Nat)
deriving DecidableEq, Repr

/-- `cast<Geography*>()` threaded through the interpreter state: the load
inspects the referent's registered type and performs no mutation (for a raw
pointer cast there is no ownership or reference-count change). -/
def castGeographyPointerS (self : PyObjectGeography) (s : PyState) :
    Except CastErr GeogPtr × PyState :=
  (castGeographyPointer self.referent, s)

/-- `as_geog_ptr` threaded through the interpreter state, translated from the
same try/catch body. -/
def as_geog_ptrS (self : PyObjectGeography) (s : PyState) :
    Except PyErr GeogPtr × PyState :=
  match castGeographyPointerS self s with
  | (.ok p, s1) => (.ok p, s1)
  | (.error _, s1) => (.error (.typeError "not a Geography object"), s1)

/-- A registered numpy dtype descriptor, identified by its address. -/
structure Descr where
  did : Nat
deriving DecidableEq, Repr

/-- The slice of the numpy C API used here: `PyArray_DescrFromType_` queries
the runtime's type-descriptor table and returns the registered descriptor for
a type number, or a null pointer if that element kind is unavailable. -/
structure NpyApi where
  PyArray_DescrFromType_ : Int → Option Descr

/-- `npy_api::NPY_OBJECT_`, the numpy type number of the generic
object-reference element kind. -/
def NPY_OBJECT_ : Int := 17

/-- `npy_format_descriptor<PyObjectGeography>::name`, declared `_("object")`. -/
def npy_format_descriptor_name : String := "object"

/-- `npy_format_descriptor<PyObjectGeography>::value = npy_api::NPY_OBJECT_`. -/
def npy_format_descriptor_value : Int := NPY_OBJECT_

/-- `npy_format_descriptor<PyObjectGeography>::dtype`: look up
`PyArray_DescrFromType_(value)`; if the result is non-null, borrow it as the
dtype, otherwise `pybind11_fail("Unsupported buffer format!")`. -/
def npy_dtype (api : NpyApi) : Except PyErr Descr :=
  match api.PyArray_DescrFromType_ npy_format_descriptor_value with
  | some d => .ok d
  | none => .error (.runtimeError "Unsupported buffer format!")

/-- `dtype()` threaded through the API state: `PyArray_DescrFromType_` reads
the runtime's (immutable after numpy initialization) builtin descriptor table
and does not modify it. -/
def npy_dtypeS (api : NpyApi) : Except PyErr Descr × NpyApi :=
  (npy_dtype api, api)

/-- `pybind11::array::forcecast` and the other `array_t` extra flags. -/
inductive ArrayFlag where
  | forcecast : ArrayFlag
  | c_style : ArrayFlag
  | f_style : ArrayFlag
deriving DecidableEq, Repr

/-- The C++ types appearing in the `vectorize_arg` trait: the handle type
itself, or `array_t<Elem, Flag>`. -/
inductive CppType where
  | pyObjGeogT : CppType
  | arrayT (elem : CppType) (flag : ArrayFlag) : CppType
deriving DecidableEq, Repr

/-- `remove_cv_t`: the model carries no cv qualifiers, so this is the
identity, kept to mirror the source's `array_t<remove_cv_t<call_type>, ...>`. -/
def remove_cv_t (t : CppType) : CppType := t

/-- The fields of a `pybind11::detail::vectorize_arg` specialization. -/
structure VectorizeArg where
  call_type : CppType
  vectorize : Bool
  type : CppType
deriving DecidableEq, Repr

/-- `vectorize_arg<s2shapely::PyObjectGeography>`, translated field by field:
`call_type = T`, `vectorize = true`, and
`type = conditional_t<vectorize, array_t<remove_cv_t<call_type>, array::forcecast>, T>`. -/
def vectorize_arg_PyObjectGeography : VectorizeArg :=
  let T := CppType.pyObjGeogT
  let call_type := T
  let vectorize := true
  { call_type := call_type,
    vectorize := vectorize,
    type := if vectorize then CppType.arrayT (remove_cv_t call_type) ArrayFlag.forcecast else T }

/-- Modelled from pybind11 `array_t` semantics (external library): `ensure`
on an argument array converts the input to the target dtype when the
`forcecast` flag is set, whatever the input dtype; without `forcecast` a
mismatched dtype is not accepted. Returns the dtype the native code sees,
or `none` for rejection. -/
def ensureDtype (flag : ArrayFlag) (target input : Int) : Option Int :=
  match flag with
  | .forcecast => some target
  | _ => if input = target then some target else none

/-- `pybind11::cast<T>(T&& value)` for `T = s2shapely::PyObjectGeography`:
the body is `return value;` — the returned `object` holds the very same
`PyObject` reference, with no conversion of the referent. -/
def pybind11_cast (value : PyObjectGeography) : PyObject := value

/-- Does this referent describe a wrapped Native Geometry Object? -/
def isGeogReferent : Referent → Bool
  | .geog _ _ => true
  | _ => false

/-- A referent that is a plain (non-geometry, non-`None`) Python value. -/
def isPlainValue : Referent → Bool
  | .pyInt _ => true
  | .pyStr _ => true
  | .pyOther _ => true
  | _ => false

/-- Is this result a raised `ValueError`? -/
def isValueErrorRes : Except PyErr GeogPtr → Bool
  | .error (.valueError _) => true
  | _ => false

/-- A concrete handle wrapping a `Geography` subobject at address 7,
dynamic subtype tag 1. -/
def geogHandle : PyObjectGeography := ⟨102, .geog 7 1⟩

/-- A concrete handle referencing the plain Python integer 5. -/
def intHandle : PyObjectGeography := ⟨100, .pyInt 5⟩

/-- A concrete handle referencing Python `None`. -/
def noneHandle : PyObjectGeography := ⟨101, .pyNone⟩

/-- A concrete interpreter state with one tracked reference count. -/
def state0 : PyState := ⟨[(100, 1)]⟩

/-- A concrete numpy API whose descriptor table has the object kind. -/
def apiGood : NpyApi := ⟨fun t => if t = 17 then some ⟨42⟩ else none⟩

/-- Claim C1: for every handle whose referent is a wrapped Native Geometry
Object (any subtype), `as_geog_ptr` returns a non-owning pointer to that same
object — same address, same dynamic subtype tag — and `is_geog_ptr` returns
`true`. -/
theorem C1_geog_handle_casts (h : PyObjectGeography) (a k : Nat)
    (hg : h.referent = .geog a k) :
    as_geog_ptr h = .ok (some ⟨a, k⟩) ∧ is_geog_ptr h = true := by
  constructor <;> simp [as_geog_ptr, is_geog_ptr, castGeographyPointer, hg]

/-- Witness for C1 at a concrete geography-wrapping handle. -/
theorem C1_geog_handle_casts_witness :
    geogHandle.referent = .geog 7 1 ∧
      (as_geog_ptr geogHandle = .ok (some ⟨7, 1⟩) ∧ is_geog_ptr geogHandle = true) :=
  ⟨rfl, C1_geog_handle_casts geogHandle 7 1 rfl⟩

/-- Claim C2 counterexample: the `None` handle's referent is not a Native
Geometry Object, yet `as_geog_ptr` succeeds (returning a null pointer, no
error) and `is_geog_ptr` returns `true` — refuting the claim's universal
quantification over all non-geometry referents. -/
theorem C2_counterexample :
    isGeogReferent noneHandle.referent = false ∧
      as_geog_ptr noneHandle = Except.ok (none : GeogPtr) ∧
      is_geog_ptr noneHandle = true :=
  ⟨rfl, rfl, rfl⟩

/-- Claim C2 (amended): for every handle whose referent is a plain
non-geometry, non-`None` value (e.g. an int or a string), `as_geog_ptr` fails
with the type-mismatch error and `is_geog_ptr` returns `false` without
raising. -/
theorem C2_plain_value_fails (h : PyObjectGeography)
    (hp : isPlainValue h.referent = true) :
    as_geog_ptr h = .error (.typeError "not a Geography object") ∧
      is_geog_ptr h = false := by
  cases hr : h.referent <;>
    simp [isPlainValue, hr] at hp <;>
    simp [as_geog_ptr, is_geog_ptr, castGeographyPointer, hr]

/-- Witness for the amended C2 at a concrete integer-valued handle. -/
theorem C2_plain_value_fails_witness :
    isPlainValue intHandle.referent = true ∧
      (as_geog_ptr intHandle = .error (.typeError "not a Geography object") ∧
        is_geog_ptr intHandle = false) :=
  ⟨rfl, C2_plain_value_fails intHandle rfl⟩

/-- Claim C3 counterexample: at a concrete failing handle, the surfaced
exception is `py::type_error` (a `TypeError`), carrying the message
"not a Geography object" — it is not a value-error-style exception. -/
theorem C3_counterexample :
    as_geog_ptr intHandle = .error (.typeError "not a Geography object") ∧
      isValueErrorRes (as_geog_ptr intHandle) = false :=
  ⟨rfl, rfl⟩

/-- Claim C3 (amended): whenever the downcast in `as_geog_ptr` fails, the
failure is surfaced as a type-error-style exception (`py::type_error`, a
Python `TypeError`) carrying exactly the message "not a Geography object". -/
theorem C3_failure_message (h : PyObjectGeography) (e : CastErr)
    (hf : castGeographyPointer h.referent = .error e) :
    as_geog_ptr h = .error (.typeError "not a Geography object") := by
  simp [as_geog_ptr, hf]

/-- Witness for the amended C3 at a concrete integer-valued handle. -/
theorem C3_failure_message_witness :
    castGeographyPointer intHandle.referent = .error .castError ∧
      as_geog_ptr intHandle = .error (.typeError "not a Geography object") :=
  ⟨rfl, C3_failure_message intHandle .castError rfl⟩

/-- Claim C4: round-trip native → host → native. Wrapping a freshly
constructed, exclusively owned `Geography` object with `as_py_object` yields
a handle for which `is_geog_ptr` is `true` and `as_geog_ptr` recovers a
pointer to the identical object (same address, same dynamic subtype — no
copy), whatever fresh `PyObject` address the wrapper is allocated at. -/
theorem C4_round_trip (g : GeogObj) (fresh : Nat) :
    is_geog_ptr (as_py_object g fresh) = true ∧
      as_geog_ptr (as_py_object g fresh) = .ok (some g) := by
  cases g
  exact ⟨rfl, rfl⟩

/-- Claim C5: a failed `as_geog_ptr` call is atomic. If the cast fails, the
interpreter state (reference counts) is returned unchanged, retrying the same
handle in the resulting state fails identically, and the cast behaviour of
every other handle — hence of every element of any array of handles — is
unaffected. -/
theorem C5_failed_cast_atomic (h : PyObjectGeography) (s s1 : PyState)
    (e : PyErr) (hf : as_geog_ptrS h s = (.error e, s1)) :
    s1 = s ∧
      as_geog_ptrS h s1 = (.error e, s1) ∧
      (∀ g : PyObjectGeography, as_geog_ptrS g s1 = as_geog_ptrS g s) ∧
      (∀ arr : List PyObjectGeography,
        arr.map (fun x => (as_geog_ptrS x s1).1) =
          arr.map (fun x => (as_geog_ptrS x s).1)) := by
  have hs : s1 = s := by
    simp only [as_geog_ptrS, castGeographyPointerS] at hf
    cases hc : castGeographyPointer h.referent with
    | ok p => simp [hc] at hf
    | error e2 =>
      simp [hc] at hf
      exact hf.2.symm
  subst hs
  exact ⟨rfl, hf, fun _ => rfl, fun _ => rfl⟩

/-- Witness for C5 at a concrete failing handle and state. -/
theorem C5_failed_cast_atomic_witness :
    as_geog_ptrS intHandle state0 =
        (.error (.typeError "not a Geography object"), state0) ∧
      (state0 = state0 ∧
        as_geog_ptrS intHandle state0 =
          (.error (.typeError "not a Geography object"), state0) ∧
        (∀ g : PyObjectGeography,
          as_geog_ptrS g state0 = as_geog_ptrS g state0) ∧
        (∀ arr : List PyObjectGeography,
          arr.map (fun x => (as_geog_ptrS x state0).1) =
            arr.map (fun x => (as_geog_ptrS x state0).1))) :=
  ⟨rfl, C5_failed_cast_atomic intHandle state0 state0
    (.typeError "not a Geography object") rfl⟩

/-- Claim C6: the dtype lookup fails (with the fatal
`RuntimeError "Unsupported buffer format!"`) exactly when the runtime's
type-descriptor table lacks the generic object-reference kind
(`NPY_OBJECT_`); when a descriptor is registered for that kind, the lookup
returns that registered descriptor and does not fail. -/
theorem C6_dtype_lookup (api : NpyApi) :
    (api.PyArray_DescrFromType_ npy_format_descriptor_value = none ↔
        npy_dtype api = .error (.runtimeError "Unsupported buffer format!")) ∧
      (∀ d : Descr,
        api.PyArray_DescrFromType_ npy_format_descriptor_value = some d →
          npy_dtype api = .ok d) := by
  cases hd : api.PyArray_DescrFromType_ npy_format_descriptor_value <;>
    simp [npy_dtype, hd]

/-- Witness for C6 at a concrete API whose table has the object kind. -/
theorem C6_dtype_lookup_witness :
    apiGood.PyArray_DescrFromType_ npy_format_descriptor_value = some ⟨42⟩ ∧
      npy_dtype apiGood = .ok ⟨42⟩ :=
  ⟨rfl, (C6_dtype_lookup apiGood).2 ⟨42⟩ rfl⟩

/-- Claim C7: the vectorization trait for the handle type declares it a
per-element vectorized argument: `call_type` is the handle type itself (not
an array), `vectorize` is `true`, and the accepted argument type is an array
of handles with the `forcecast` flag, under which an input array of any
dtype is coerced to the target dtype rather than rejected. -/
theorem C7_vectorize_trait :
    vectorize_arg_PyObjectGeography.call_type = CppType.pyObjGeogT ∧
      vectorize_arg_PyObjectGeography.vectorize = true ∧
      vectorize_arg_PyObjectGeography.type =
        CppType.arrayT CppType.pyObjGeogT ArrayFlag.forcecast ∧
      (∀ input : Int,
        ensureDtype ArrayFlag.forcecast npy_format_descriptor_value input =
          some npy_format_descriptor_value) :=
  ⟨rfl, rfl, rfl, fun _ => rfl⟩

/-- Claim C8: performing the dtype lookup twice in the same runtime is total
(never crashes) and deterministic: the second lookup sees an unchanged
descriptor table and either both lookups yield the same descriptor identity
or both fail with the same `Unsupported buffer format!` error. -/
theorem C8_lookup_twice_deterministic (api : NpyApi) :
    (npy_dtypeS api).2 = api ∧
      (npy_dtypeS (npy_dtypeS api).2).1 = (npy_dtypeS api).1 ∧
      ((∃ d : Descr, (npy_dtypeS api).1 = .ok d ∧
          (npy_dtypeS (npy_dtypeS api).2).1 = .ok d) ∨
        ((npy_dtypeS api).1 =
            .error (.runtimeError "Unsupported buffer format!") ∧
          (npy_dtypeS (npy_dtypeS api).2).1 =
            .error (.runtimeError "Unsupported buffer format!"))) := by
  refine ⟨rfl, rfl, ?_⟩
  simp only [npy_dtypeS]
  cases hd : api.PyArray_DescrFromType_ npy_format_descriptor_value with
  | none => exact Or.inr ⟨by simp [npy_dtype, hd], by simp [npy_dtype, hd]⟩
  | some d => exact Or.inl ⟨d, by simp [npy_dtype, hd], by simp [npy_dtype, hd]⟩

/-- Claim C9: for a handle referencing Python `None`, the checked downcast
succeeds even though the referent is not a Native Geometry Object:
`as_geog_ptr` returns a null native pointer without raising, and
`is_geog_ptr` returns `true`. -/
theorem C9_none_casts_to_null (h : PyObjectGeography)
    (hn : h.referent = .pyNone) :
    isGeogReferent h.referent = false ∧
      as_geog_ptr h = Except.ok (none : GeogPtr) ∧
      is_geog_ptr h = true := by
  refine ⟨?_, ?_, ?_⟩ <;>
    simp [isGeogReferent, as_geog_ptr, is_geog_ptr, castGeographyPointer, hn]

/-- Witness for C9 at the concrete `None` handle. -/
theorem C9_none_casts_to_null_witness :
    noneHandle.referent = .pyNone ∧
      (isGeogReferent noneHandle.referent = false ∧
        as_geog_ptr noneHandle = Except.ok (none : GeogPtr) ∧
        is_geog_ptr noneHandle = true) :=
  ⟨rfl, C9_none_casts_to_null noneHandle rfl⟩

/-- Claim C10: the cast specialization used when a vectorized function
returns a handle is the identity: for every handle value, `cast` returns the
very same handle — same `PyObject` address, same referent, no conversion or
copy. -/
theorem C10_cast_is_identity (v : PyObjectGeography) :
    pybind11_cast v = v ∧
      (pybind11_cast v).oid = v.oid ∧
      (pybind11_cast v).referent = v.referent :=
  ⟨rfl, rfl, rfl⟩

end S2Shapely
